import Mathlib

/-!
Verification of the KeyWrit license-token validator.

JavaScript strings are modelled as lists of characters and byte arrays as
lists of naturals.  External platform facilities that the validator calls
but does not implement (UTF-8 transcoding, JSON parsing, ISO date
formatting) are abstracted as a `Platform` record of oracle functions; an
exception thrown by such a facility is modelled as `Option.none`.  The
wall clock and the outcome of the single revocation-list fetch of a
`validate` call are gathered in a `World` record.  JSON numbers are
modelled as integers (license timestamps are integral seconds); where a
comparison against a non-numeric JSON value would produce `NaN` in
JavaScript, the model notes the corner in a comment.
-/

namespace KeyWrit

/-- A JavaScript string, modelled as its list of characters. -/
abbrev Str := List Char

/-- A byte array (`Uint8Array`), modelled as a list of naturals. -/
abbrev Bytes := List Nat

/-- JavaScript values reachable in the validator: the JSON data model plus
`undefined` (the result of a missing property access). -/
inductive JsValue where
  | undef : JsValue
  | null : JsValue
  | bool : Bool → JsValue
  | num : Int → JsValue
  | str : Str → JsValue
  | arr : List JsValue → JsValue
  | obj : List (Str × JsValue) → JsValue

/-- First-match lookup in an object's field list (parsed JSON objects have
unique keys, so first-match and last-match coincide). -/
def lookupField : List (Str × JsValue) → Str → Option JsValue
  | [], _ => none
  | (k, v) :: rest, key => if k = key then some v else lookupField rest key

/-- JavaScript property access `v.key`: a field of an object, `undefined`
(modelled as `none`) on every other non-nullish value.  Access on `null`
or `undefined` throws; the call sites model that case separately. -/
def jsGet (v : JsValue) (key : Str) : Option JsValue :=
  match v with
  | .obj fields => lookupField fields key
  | _ => none

/-- JavaScript truthiness of a value. -/
def jsTruthy : JsValue → Bool
  | .undef => false
  | .null => false
  | .bool b => b
  | .num n => n != 0
  | .str s => !s.isEmpty
  | .arr _ => true
  | .obj _ => true

/-- Truthiness of a possibly-undefined value (`undefined` is falsy). -/
def jsTruthyOpt : Option JsValue → Bool
  | none => false
  | some v => jsTruthy v

/-- Truthiness of an optional string field such as `revocationUrl`
(`undefined` and the empty string are falsy). -/
def jsTruthyStr : Option Str → Bool
  | none => false
  | some s => !s.isEmpty

/-- The decimal digit character for `n % 10`. -/
def digitChar (n : Nat) : Char := Char.ofNat (48 + n % 10)

/-- Structural worker for `natDigits`; the fuel (always sufficient at
`n + 1`) keeps the recursion kernel-reducible. -/
def natDigitsAux : Nat → Nat → Str
  | 0, _ => []
  | fuel + 1, n =>
    if n < 10 then [digitChar n]
    else natDigitsAux fuel (n / 10) ++ [digitChar (n % 10)]

/-- Decimal rendering of a natural number, as JavaScript template-literal
interpolation produces for a non-negative integer. -/
def natDigits (n : Nat) : Str := natDigitsAux (n + 1) n

/-- Decimal rendering of an integer. -/
def intRepr (n : Int) : Str :=
  if n < 0 then '-' :: natDigits n.natAbs else natDigits n.natAbs

/-- Whether a value is `null` or `undefined` (the values that JavaScript
`Array.prototype.join` renders as the empty string). -/
def isNullish : JsValue → Bool
  | .null => true
  | .undef => true
  | _ => false

mutual

/-- JavaScript string conversion of a value, as produced by template
literal interpolation. -/
def jsToString : JsValue → Str
  | .undef => "undefined".toList
  | .null => "null".toList
  | .bool true => "true".toList
  | .bool false => "false".toList
  | .num n => intRepr n
  | .str s => s
  | .arr xs => jsJoinComma xs
  | .obj _ => "[object Object]".toList

/-- `Array.prototype.toString`: elements joined with commas, nullish
elements rendered as empty. -/
def jsJoinComma : List JsValue → Str
  | [] => []
  | [x] => if isNullish x then [] else jsToString x
  | x :: y :: rest =>
    (if isNullish x then [] else jsToString x) ++ ',' :: jsJoinComma (y :: rest)

end

/-- `Array.prototype.join` with an arbitrary separator. -/
def jsJoinSep (sep : Str) : List JsValue → Str
  | [] => []
  | [x] => if isNullish x then [] else jsToString x
  | x :: y :: rest =>
    (if isNullish x then [] else jsToString x) ++ sep ++ jsJoinSep sep (y :: rest)

/-- Rendering of a possibly-undefined value inside a template literal. -/
def jsDisplayOpt (v : Option JsValue) : Str :=
  match v with
  | none => jsToString .undef
  | some j => jsToString j

/-- The base64url alphabet of `src/utils/base64url.ts`. -/
def BASE64URL_CHARS : Str :=
  "ABCDEFGHIJKLMNOPQRSTUVWXYZabcdefghijklmnopqrstuvwxyz0123456789-_".toList

/-- `String.prototype.indexOf` over the alphabet: index of the first
occurrence, `none` standing for `-1`. -/
def b64IndexAux : Str → Char → Nat → Option Nat
  | [], _, _ => none
  | a :: rest, c, i => if a = c then some i else b64IndexAux rest c (i + 1)

/-- Alphabet index of a character (`none` when absent, where the source
throws). -/
def b64Val (c : Char) : Option Nat := b64IndexAux BASE64URL_CHARS c 0

/-- The bit-accumulator loop of `decode` in `src/utils/base64url.ts`:
six bits per character, a byte emitted whenever eight bits are
available. -/
def b64Loop : Str → Nat → Nat → Bytes → Option Bytes
  | [], _, _, acc => some acc.reverse
  | c :: rest, buffer, bits, acc =>
    match b64Val c with
    | none => none
    | some value =>
      let buffer' := buffer <<< 6 ||| value
      let bits' := bits + 6
      if bits' ≥ 8 then
        b64Loop rest buffer' (bits' - 8) (((buffer' >>> (bits' - 8)) &&& 255) :: acc)
      else
        b64Loop rest buffer' bits' acc

/-- `decode` of `src/utils/base64url.ts`: strip trailing padding, map the
standard-alphabet characters to the URL-safe ones, then run the bit
loop; `none` models the exception thrown on an invalid character. -/
def base64urlDecode (s : Str) : Option Bytes :=
  let s₁ := (s.reverse.dropWhile (· = '=')).reverse
  let s₂ := s₁.map (fun c => if c = '+' then '-' else if c = '/' then '_' else c)
  b64Loop s₂ 0 0 []

/-- External platform facilities used by the validator.  `utf8` and
`utf8Encode` model `TextDecoder`/`TextEncoder` (total: the decoder
substitutes replacement characters), `parseJson` models `JSON.parse`
with exceptions as `none`, and `isoOfMillis` models
`Date.prototype.toISOString`. -/
structure Platform where
  utf8 : Bytes → Str
  utf8Encode : Str → Bytes
  parseJson : Str → Option JsValue
  isoOfMillis : Int → Str

/-- `decodeString` of `src/utils/base64url.ts`: base64url bytes decoded
as UTF-8 text. -/
def decodeString (p : Platform) (s : Str) : Option Str :=
  (base64urlDecode s).map p.utf8

/-- A token segment taken through `decodeString` and `JSON.parse`, the
composite the decoder wraps in one `try` block. -/
def segJson (p : Platform) (seg : Str) : Option JsValue :=
  match decodeString p seg with
  | none => none
  | some text => p.parseJson text

/-- The fixed issuer constant of `src/constants.ts`. -/
def KEYWRIT_ISSUER : Str := "keywrit".toList

/-- The supported-version set of `src/constants.ts`. -/
def SUPPORTED_VERSIONS : List Int := [1]

/-- The validation error codes of `src/types/errors.ts`. -/
inductive ErrorCode where
  | MALFORMED_TOKEN
  | INVALID_HEADER
  | INVALID_PAYLOAD
  | SIGNATURE_VERIFICATION_FAILED
  | TOKEN_REVOKED
  | TOKEN_EXPIRED
  | TOKEN_NOT_YET_VALID
  | EXPIRATION_REQUIRED
  | INVALID_ISSUER
  | INVALID_AUDIENCE
  | MISSING_REQUIRED_FLAG
  | KIND_MISMATCH
  | MISSING_REQUIRED_FEATURE
deriving DecidableEq

/-- The validation warning codes. -/
inductive WarningCode where
  | EXPIRING_SOON
  | CLOCK_SKEW_APPLIED
  | NO_EXPIRATION
deriving DecidableEq

/-- A validation error record: code, message, optional details object. -/
structure ValidationError where
  code : ErrorCode
  message : Str
  details : Option (List (Str × JsValue))

/-- A validation warning record. -/
structure ValidationWarning where
  code : WarningCode
  message : Str
  details : Option (List (Str × JsValue))

/-- `createError` of `src/errors.ts`. -/
def createError (code : ErrorCode) (message : Str)
    (details : Option (List (Str × JsValue))) : ValidationError :=
  { code := code, message := message, details := details }

/-- `malformedToken` of `src/errors.ts`. -/
def malformedToken (reason : Str) : ValidationError :=
  createError .MALFORMED_TOKEN ("Malformed token: ".toList ++ reason) none

/-- `invalidHeader` of `src/errors.ts`. -/
def invalidHeader (reason : Str) : ValidationError :=
  createError .INVALID_HEADER ("Invalid header: ".toList ++ reason) none

/-- `invalidPayload` of `src/errors.ts`. -/
def invalidPayload (reason : Str) : ValidationError :=
  createError .INVALID_PAYLOAD ("Invalid payload: ".toList ++ reason) none

/-- A decoded token: header and payload values, raw signature bytes, and
the exact signed substring, as in `src/types/jwt.ts`. -/
structure DecodedJWT where
  header : JsValue
  payload : JsValue
  signature : Bytes
  signingInput : Str

/-- Result type of `decodeJWT` in `src/jwt/decode.ts`. -/
inductive DecodeResult where
  | success (data : DecodedJWT)
  | failure (error : Str)

/-- Whether `typeof v === "object" && v !== null` holds: objects and
arrays pass, `null` and every scalar (and `undefined`) fail. -/
def jsIsObjectType : JsValue → Bool
  | .obj _ => true
  | .arr _ => true
  | _ => false

/-- JavaScript strict equality of a possibly-undefined value against a
string literal: true exactly when the value is that string. -/
def jsEqStr (v : Option JsValue) (s : Str) : Bool :=
  match v with
  | some (.str t) => t = s
  | _ => false

/-- `Array.prototype.includes` on a number array applied to an arbitrary
value: a strict-equality hit requires the value to be that number. -/
def jsNumIncluded (ns : List Int) (v : JsValue) : Bool :=
  match v with
  | .num n => ns.contains n
  | _ => false

/-- Key strings of the recognized header and payload fields. -/
def kAlg : Str := "alg".toList

def kTyp : Str := "typ".toList

def kKwv : Str := "kwv".toList

def kExp : Str := "exp".toList

def kNbf : Str := "nbf".toList

def kIss : Str := "iss".toList

def kAud : Str := "aud".toList

def kJti : Str := "jti".toList

def kSub : Str := "sub".toList

def kKind : Str := "kind".toList

def kFlags : Str := "flags".toList

def kFeatures : Str := "features".toList

/-- `decodeJWT` of `src/jwt/decode.ts`.  Splits the token on dots,
decodes and validates the header, payload and signature segments in
source order, and reconstructs the signing input.  The `Except.error`
outcome models the uncaught `TypeError` JavaScript raises when the header
segment parses to `null` (or `undefined`) and the subsequent property
access throws. -/
def decodeJWT (p : Platform) (token : Str) : Except Unit DecodeResult :=
  match token.splitOn '.' with
  | [headerB64, payloadB64, signatureB64] =>
    match segJson p headerB64 with
    | none => .ok (.failure "Failed to decode header".toList)
    | some header =>
      if isNullish header then .error ()
      else if !jsEqStr (jsGet header kAlg) ("EdDSA".toList) then
        .ok (.failure ("Invalid algorithm: expected EdDSA, got ".toList ++
          jsDisplayOpt (jsGet header kAlg)))
      else if !jsEqStr (jsGet header kTyp) ("JWT".toList) then
        .ok (.failure ("Invalid type: expected JWT, got ".toList ++
          jsDisplayOpt (jsGet header kTyp)))
      else
        match jsGet header kKwv with
        | none => .ok (.failure "Missing KeyWrit version (kwv) in header".toList)
        | some kwv =>
          if !jsNumIncluded SUPPORTED_VERSIONS kwv then
            .ok (.failure ("Unsupported KeyWrit version: ".toList ++ jsToString kwv ++
              ". Supported versions: ".toList ++
              jsJoinSep ", ".toList (SUPPORTED_VERSIONS.map JsValue.num)))
          else
            match segJson p payloadB64 with
            | none => .ok (.failure "Failed to decode payload".toList)
            | some payload =>
              if ¬ jsIsObjectType payload then
                .ok (.failure "Payload must be a JSON object".toList)
              else
                match base64urlDecode signatureB64 with
                | none => .ok (.failure "Failed to decode signature".toList)
                | some signature =>
                  if signature.length ≠ 64 then
                    .ok (.failure ("Invalid signature length: expected 64 bytes, got ".toList ++
                      natDigits signature.length))
                  else
                    .ok (.success
                      { header := header
                        payload := payload
                        signature := signature
                        signingInput := headerB64 ++ '.' :: payloadB64 })
  | parts =>
    .ok (.failure ("Invalid token structure: expected 3 parts, got ".toList ++
      natDigits parts.length))

/-- `decodePayload` of `src/jwt/decode.ts`: the permissive payload-only
decode path; every failure (wrong part count, decode or parse exception,
non-object payload) collapses to `none`. -/
def decodePayload (p : Platform) (token : Str) : Option JsValue :=
  match token.splitOn '.' with
  | [_, payloadB64, _] =>
    match segJson p payloadB64 with
    | none => none
    | some payload => if jsIsObjectType payload then some payload else none
  | _ => none

/-- The decode-error classifier inlined in `performValidation`
(`src/validators/base.ts`): case-sensitive substring tests on the decode
error message, in source order. -/
def classifyDecodeError (errorMessage : Str) : ValidationError :=
  if "structure".toList <:+: errorMessage then malformedToken errorMessage
  else if "algorithm".toList <:+: errorMessage ∨ "type".toList <:+: errorMessage ∨
      "version".toList <:+: errorMessage ∨ "kwv".toList <:+: errorMessage then
    invalidHeader errorMessage
  else if "payload".toList <:+: errorMessage ∨ "header".toList <:+: errorMessage then
    invalidPayload errorMessage
  else malformedToken errorMessage

/-- Default clock-skew tolerance in seconds (`src/utils/time.ts`). -/
def DEFAULT_CLOCK_SKEW : Int := 60

/-- Threshold for the expiring-soon warning, seven days in seconds. -/
def EXPIRING_SOON_THRESHOLD : Int := 7 * 24 * 60 * 60

/-- `isPast` of `src/utils/time.ts` (the caller has already resolved the
optional current time). -/
def isPast (timestamp currentTime clockSkew : Int) : Bool :=
  timestamp < currentTime - clockSkew

/-- `isFuture` of `src/utils/time.ts`. -/
def isFuture (timestamp currentTime clockSkew : Int) : Bool :=
  timestamp > currentTime + clockSkew

/-- `isExpiringSoon` of `src/utils/time.ts`. -/
def isExpiringSoon (exp currentTime threshold : Int) : Bool :=
  0 < exp - currentTime ∧ exp - currentTime ≤ threshold

/-- `formatDuration` of `src/utils/time.ts`: human-readable rendering of
a duration in seconds. -/
def formatDuration (seconds : Int) : Str :=
  let absSeconds := seconds.natAbs
  if absSeconds < 60 then
    natDigits absSeconds ++ " second".toList ++ (if absSeconds ≠ 1 then "s".toList else [])
  else if absSeconds < 3600 then
    let minutes := absSeconds / 60
    natDigits minutes ++ " minute".toList ++ (if minutes ≠ 1 then "s".toList else [])
  else if absSeconds < 86400 then
    let hours := absSeconds / 3600
    natDigits hours ++ " hour".toList ++ (if hours ≠ 1 then "s".toList else [])
  else
    let days := absSeconds / 86400
    natDigits days ++ " day".toList ++ (if days ≠ 1 then "s".toList else [])

/-- Timing options (`src/types/config.ts`): optional clock skew and
injected current time. -/
structure TimingOptions where
  clockSkew : Option Int
  currentTime : Option Int

/-- A revocation list (`src/types/config.ts`): optional arrays of revoked
token ids and subjects. -/
structure RevocationList where
  jti : Option (List Str)
  sub : Option (List Str)

/-- The fields a constructed `LicenseValidator` holds
(`src/validators/base.ts`); the public key has already been resolved at
construction. -/
structure ValidatorState where
  realm : Str
  publicKey : Bytes
  revocationUrl : Option Str
  revocation : Option RevocationList
  requiredFlags : Option (List Str)
  requiredKind : Option Str
  requiredFeatures : Option (List Str)
  timing : Option TimingOptions
  allowNoExpiration : Option Bool

/-- Possible outcomes of the single revocation-list fetch of one
`validate` call: the transport throws, the response has a non-success
status, the body fails to parse as JSON, or a list is obtained. -/
inductive FetchOutcome where
  | networkError
  | httpFailure
  | parseFailure
  | fetched (list : RevocationList)

/-- The ambient state a `validate` call can observe beyond its explicit
inputs: the wall clock and the revocation-fetch outcome. -/
structure World where
  now : Int
  fetch : FetchOutcome

/-- `fetchRevocationList` of `src/validators/base.ts`: `null` without a
configured URL; with one, any transport exception, non-success status or
parse exception yields `null`, and only a successful fetch yields a
list. -/
def fetchRevocationList (v : ValidatorState) (w : World) : Option RevocationList :=
  if !jsTruthyStr v.revocationUrl then none
  else
    match w.fetch with
    | .fetched list => some list
    | _ => none

/-- The membership test `payload.x && revocationList.x?.includes(payload.x)`
used by `checkRevocation`: the payload value must be truthy, the list
present, and strict equality requires a string hit. -/
def revocationHit (entry : Option (List Str)) (v : Option JsValue) : Bool :=
  jsTruthyOpt v &&
    (match entry, v with
     | some xs, some (.str s) => xs.contains s
     | _, _ => false)

/-- `checkRevocation` of `src/validators/base.ts`: resolve the list
(URL first, else static), then test `jti` membership and only on a miss
`sub` membership; at most one `TOKEN_REVOKED` error is produced. -/
def jtiRevokedError (jtiV : Option JsValue) : ValidationError :=
  createError .TOKEN_REVOKED
    ("Token has been revoked (jti: ".toList ++ jsDisplayOpt jtiV ++ ")".toList)
    (some [(kJti, jtiV.getD .undef), ("reason".toList, .str "jti_revoked".toList)])

def subRevokedError (subV : Option JsValue) : ValidationError :=
  createError .TOKEN_REVOKED
    ("Subject has been revoked (sub: ".toList ++ jsDisplayOpt subV ++ ")".toList)
    (some [(kSub, subV.getD .undef), ("reason".toList, .str "sub_revoked".toList)])

def checkRevocation (v : ValidatorState) (w : World) (payload : JsValue) :
    Option ValidationError :=
  let revocationList : Option RevocationList :=
    if jsTruthyStr v.revocationUrl then fetchRevocationList v w
    else if v.revocation.isSome then v.revocation
    else none
  match revocationList with
  | none => none
  | some list =>
    if revocationHit list.jti (jsGet payload kJti) then
      some (jtiRevokedError (jsGet payload kJti))
    else if revocationHit list.sub (jsGet payload kSub) then
      some (subRevokedError (jsGet payload kSub))
    else none

/-- Rendering of a payload field with the `?? "(none)"` fallback used in
error messages (the fallback applies to `null` and `undefined`). -/
def jsDisplayOrNone (v : Option JsValue) : Str :=
  match v with
  | none => "(none)".toList
  | some .null => "(none)".toList
  | some .undef => "(none)".toList
  | some j => jsToString j

/-- `validateInternalClaims` of `src/validators/claims/internal.ts`:
the issuer must equal the fixed system identifier and the audience
(normalized to a list) must contain the configured realm. -/
def validateInternalClaims (payload : JsValue) (realm : Str) : List ValidationError :=
  let issErrors :=
    if !jsEqStr (jsGet payload kIss) KEYWRIT_ISSUER then
      [createError .INVALID_ISSUER
        ("Invalid issuer: expected \"keywrit\", got \"".toList ++
          jsDisplayOrNone (jsGet payload kIss) ++ "\"".toList)
        (some [("expected".toList, .str KEYWRIT_ISSUER),
               ("actual".toList, (jsGet payload kIss).getD .undef)])]
    else []
  let actualAuds : List JsValue :=
    match jsGet payload kAud with
    | none => []
    | some a =>
      if jsTruthy a then (match a with | .arr xs => xs | _ => [a]) else []
  let audErrors :=
    if !(actualAuds.any (fun x => jsEqStr (some x) realm)) then
      [createError .INVALID_AUDIENCE
        ("Token not authorized for this realm: expected audience to include \"".toList ++
          realm ++ "\", got [".toList ++
          (let joined := jsJoinSep ", ".toList actualAuds
           if joined.isEmpty then "(none)".toList else joined) ++ "]".toList)
        (some [("expectedRealm".toList, .str realm),
               ("actualAudience".toList, .arr actualAuds)])]
    else []
  issErrors ++ audErrors

/-- The `TOKEN_EXPIRED` error record of `validateTimingClaims`. -/
def tokenExpiredError (p : Platform) (exp currentTime : Int) : ValidationError :=
  createError .TOKEN_EXPIRED
    ("Token expired ".toList ++ formatDuration (currentTime - exp) ++ " ago".toList)
    (some [(kExp, .num exp), ("currentTime".toList, .num currentTime),
           ("expiredAt".toList, .str (p.isoOfMillis (exp * 1000)))])

/-- The `EXPIRING_SOON` warning record of `validateTimingClaims`. -/
def expiringSoonWarning (exp currentTime : Int) : ValidationWarning :=
  ValidationWarning.mk .EXPIRING_SOON
    ("Token expires in ".toList ++ formatDuration (exp - currentTime))
    (some [(kExp, .num exp), ("secondsRemaining".toList, .num (exp - currentTime))])

/-- The `CLOCK_SKEW_APPLIED` warning record of `validateTimingClaims`. -/
def clockSkewWarning (clockSkew : Int) : ValidationWarning :=
  ValidationWarning.mk .CLOCK_SKEW_APPLIED
    ("Token accepted within clock skew tolerance (".toList ++ intRepr clockSkew ++ "s)".toList)
    (some [("clockSkew".toList, .num clockSkew)])

/-- The `EXPIRATION_REQUIRED` error record of `validateTimingClaims`. -/
def expirationRequiredError : ValidationError :=
  createError .EXPIRATION_REQUIRED "Token must have an expiration time".toList none

/-- The `NO_EXPIRATION` warning record of `validateTimingClaims`. -/
def noExpirationWarning : ValidationWarning :=
  ValidationWarning.mk .NO_EXPIRATION "Token has no expiration time".toList none

/-- The `TOKEN_NOT_YET_VALID` error record of `validateTimingClaims`. -/
def notYetValidError (p : Platform) (nbf currentTime : Int) : ValidationError :=
  createError .TOKEN_NOT_YET_VALID
    ("Token not valid for another ".toList ++ formatDuration (nbf - currentTime))
    (some [(kNbf, .num nbf), ("currentTime".toList, .num currentTime),
           ("validFrom".toList, .str (p.isoOfMillis (nbf * 1000)))])

/-- The expiration block of `validateTimingClaims`
(`src/validators/claims/timing.ts`).  A non-numeric `exp` value is
present (so the absent-expiration branch is not taken) but makes every
numeric comparison `NaN`-false, producing no error and no warning. -/
def expirationPart (p : Platform) (payload : JsValue) (clockSkew currentTime : Int)
    (allowNoExpiration : Bool) : List ValidationError × List ValidationWarning :=
  match jsGet payload kExp with
  | some (.num exp) =>
    let errors :=
      if isPast exp currentTime clockSkew then [tokenExpiredError p exp currentTime]
      else []
    let warnings :=
      (if !isPast exp currentTime clockSkew &&
          isExpiringSoon exp currentTime EXPIRING_SOON_THRESHOLD then
        [expiringSoonWarning exp currentTime]
       else []) ++
      (if clockSkew > 0 ∧ exp < currentTime ∧ exp ≥ currentTime - clockSkew then
        [clockSkewWarning clockSkew]
       else [])
    (errors, warnings)
  | some _ => ([], [])
  | none =>
    if !allowNoExpiration then ([expirationRequiredError], [])
    else ([], [noExpirationWarning])

/-- The not-before block of `validateTimingClaims`.  As with `exp`, a
non-numeric `nbf` compares `NaN`-false and produces nothing. -/
def nbfPart (p : Platform) (payload : JsValue) (clockSkew currentTime : Int) :
    List ValidationError :=
  match jsGet payload kNbf with
  | some (.num nbf) =>
    if isFuture nbf currentTime clockSkew then [notYetValidError p nbf currentTime]
    else []
  | _ => []

/-- `validateTimingClaims` of `src/validators/claims/timing.ts`: resolve
the clock skew and current time, run the expiration and not-before
blocks, and concatenate their errors in source order. -/
def validateTimingClaims (p : Platform) (payload : JsValue) (options : TimingOptions)
    (allowNoExpiration : Bool) (w : World) :
    List ValidationError × List ValidationWarning :=
  let clockSkew := options.clockSkew.getD DEFAULT_CLOCK_SKEW
  let currentTime := options.currentTime.getD w.now
  let ex := expirationPart p payload clockSkew currentTime allowNoExpiration
  (ex.1 ++ nbfPart p payload clockSkew currentTime, ex.2)

/-- Claim matcher options (`src/jwt/claims.ts`). -/
structure ClaimMatcherOptions where
  requiredFlags : Option (List Str)
  requiredKind : Option Str
  requiredFeatures : Option (List Str)

/-- The `payload.x ?? fallback` resolution of a payload field:
the fallback replaces only `null` and `undefined`. -/
def jsGetOr (payload : JsValue) (key : Str) (fallback : JsValue) : JsValue :=
  match jsGet payload key with
  | none => fallback
  | some .null => fallback
  | some .undef => fallback
  | some v => v

/-- JavaScript `value.includes(flag)`: array membership by strict
equality, substring search on a string, and a thrown `TypeError`
(modelled as `Except.error`) on any other receiver. -/
def jsIncludes (v : JsValue) (s : Str) : Except Unit Bool :=
  match v with
  | .arr xs => .ok (xs.any (fun x => jsEqStr (some x) s))
  | .str t => .ok (decide (s <:+: t))
  | _ => .error ()

/-- JavaScript `key in value`: own-key lookup on an object; on a
non-object receiver the operator throws.  (An array receiver, which
JavaScript would accept via index and prototype keys, is likewise
modelled as a throw; no claim exercises that corner.) -/
def jsHasKey (v : JsValue) (key : Str) : Except Unit Bool :=
  match v with
  | .obj fields => .ok (lookupField fields key).isSome
  | _ => .error ()

/-- `Object.keys` of the payload `features` value as displayed in the
missing-feature error details. -/
def jsObjectKeys (v : JsValue) : List JsValue :=
  match v with
  | .obj fields => fields.map (fun f => .str f.1)
  | _ => []

/-- The required-flags loop of `validateClaimMatchers`: one
`MISSING_REQUIRED_FLAG` error per absent flag, in option order. -/
def checkFlagsLoop (flagsVal : JsValue) : List Str → Except Unit (List ValidationError)
  | [] => .ok []
  | flag :: rest => do
    let present ← jsIncludes flagsVal flag
    let tail ← checkFlagsLoop flagsVal rest
    if present then .ok tail
    else
      .ok (createError .MISSING_REQUIRED_FLAG
        ("Missing required flag: \"".toList ++ flag ++ "\"".toList)
        (some [("requiredFlag".toList, .str flag),
               ("availableFlags".toList, flagsVal)]) :: tail)

/-- The required-features loop of `validateClaimMatchers`: one
`MISSING_REQUIRED_FEATURE` error per absent feature key. -/
def checkFeaturesLoop (featuresVal : JsValue) : List Str → Except Unit (List ValidationError)
  | [] => .ok []
  | feature :: rest => do
    let present ← jsHasKey featuresVal feature
    let tail ← checkFeaturesLoop featuresVal rest
    if present then .ok tail
    else
      .ok (createError .MISSING_REQUIRED_FEATURE
        ("Missing required feature: \"".toList ++ feature ++ "\"".toList)
        (some [("requiredFeature".toList, .str feature),
               ("availableFeatures".toList, .arr (jsObjectKeys featuresVal))]) :: tail)

/-- `validateClaimMatchers` of `src/jwt/claims.ts`: required flags, then
required kind (strict equality), then required feature keys; the
warnings list is always empty. -/
def validateClaimMatchers (payload : JsValue) (options : ClaimMatcherOptions) :
    Except Unit (List ValidationError × List ValidationWarning) := do
  let flagErrors ←
    match options.requiredFlags with
    | some req =>
      if req.length > 0 then checkFlagsLoop (jsGetOr payload kFlags (.arr [])) req
      else pure []
    | none => pure []
  let kindErrors :=
    match options.requiredKind with
    | some requiredKind =>
      if !jsEqStr (jsGet payload kKind) requiredKind then
        [createError .KIND_MISMATCH
          ("Kind mismatch: expected \"".toList ++ requiredKind ++ "\", got \"".toList ++
            jsDisplayOrNone (jsGet payload kKind) ++ "\"".toList)
          (some [("requiredKind".toList, .str requiredKind),
                 ("actualKind".toList, (jsGet payload kKind).getD .undef)])]
      else []
    | none => []
  let featureErrors ←
    match options.requiredFeatures with
    | some req =>
      if req.length > 0 then checkFeaturesLoop (jsGetOr payload kFeatures (.obj [])) req
      else pure []
    | none => pure []
  return (flagErrors ++ kindErrors ++ featureErrors, [])

/-- The behaviour of the external signature primitive on given inputs:
a boolean verdict or a thrown exception. -/
def VerifyPrim := Bytes → Bytes → Bytes → Except Unit Bool

/-- Modelled from the spec: `src/crypto/ed25519.ts`, the verify-only
wrapper around the external Ed25519 primitive, is not present under
`src/`; per the specification's Signature Verifier section, any internal
exception the primitive raises on malformed inputs is folded into a
failed verification rather than surfaced. -/
def ed25519Verify (prim : VerifyPrim) (sig msg publicKey : Bytes) : Bool :=
  match prim sig msg publicKey with
  | .ok b => b
  | .error _ => false

/-- Result of signature verification (`src/jwt/verify.ts`). -/
inductive VerifyResult where
  | success
  | failure (error : ValidationError)

/-- `verifySignature` of `src/jwt/verify.ts`: UTF-8 encode the signing
input, invoke the Ed25519 wrapper, and fold a negative verdict into a
`SIGNATURE_VERIFICATION_FAILED` error result. -/
def verifySignature (p : Platform) (prim : VerifyPrim) (decoded : DecodedJWT)
    (publicKey : Bytes) : VerifyResult :=
  let message := p.utf8Encode decoded.signingInput
  if !ed25519Verify prim decoded.signature message publicKey then
    .failure (createError .SIGNATURE_VERIFICATION_FAILED
      "JWT signature verification failed".toList none)
  else .success

/-- The validation outcome (`src/types/results.ts`): success carries the
license payload and optional warnings; failure carries the primary
error, the optional aggregated error list, and the optional unverified
payload.  The tagged union makes populating exactly one variant a typing
invariant. -/
inductive ValidationResult where
  | valid (license : JsValue) (warnings : Option (List ValidationWarning))
  | invalid (error : ValidationError) (errors : Option (List ValidationError))
      (unverifiedPayload : Option JsValue)

/-- The final aggregation block of `performValidation`: with no error a
success carrying the warnings (when any), otherwise a failure headed by
the first error, attaching the full list only when it has more than one
element. -/
def aggregateResults (payload : JsValue) (allErrors : List ValidationError)
    (allWarnings : List ValidationWarning) : ValidationResult :=
  match allErrors with
  | [] => .valid payload (if allWarnings.isEmpty then none else some allWarnings)
  | e₀ :: rest =>
    .invalid e₀ (if rest.isEmpty then none else some (e₀ :: rest)) (some payload)

/-- `performValidation` of `src/validators/base.ts`: decode, classify a
decode failure, verify the signature, check revocation, then run the
three claim evaluators, aggregating their errors and warnings; the first
error becomes the primary one and the full list is attached only when it
has more than one element.  `Except.error` models an exception escaping
the call. -/
def performValidation (p : Platform) (prim : VerifyPrim) (v : ValidatorState)
    (w : World) (token : Str) : Except Unit ValidationResult :=
  match decodeJWT p token with
  | .error e => .error e
  | .ok (.failure errorMessage) =>
    .ok (.invalid (classifyDecodeError errorMessage) none (decodePayload p token))
  | .ok (.success decoded) =>
    match verifySignature p prim decoded v.publicKey with
    | .failure err => .ok (.invalid err none (some decoded.payload))
    | .success =>
      match checkRevocation v w decoded.payload with
      | some err => .ok (.invalid err none (some decoded.payload))
      | none =>
        match validateClaimMatchers decoded.payload
          { requiredFlags := v.requiredFlags
            requiredKind := v.requiredKind
            requiredFeatures := v.requiredFeatures } with
        | .error e => .error e
        | .ok claimResult =>
        let internalErrors := validateInternalClaims decoded.payload v.realm
        let timingResult := validateTimingClaims p decoded.payload
          (v.timing.getD { clockSkew := none, currentTime := none })
          (v.allowNoExpiration.getD false) w
        let allErrors := internalErrors ++ timingResult.1 ++ claimResult.1
        let allWarnings := timingResult.2 ++ claimResult.2
        .ok (aggregateResults decoded.payload allErrors allWarnings)

/-- `matchesDomain` of `src/validator.ts`: case-insensitive exact match,
or a wildcard pattern whose dotted suffix must properly end the
hostname.  (Lowercasing is modelled per character, covering the ASCII
hostnames the matcher is used on.) -/
def matchesDomain (hostname pattern₀ : Str) : Bool :=
  let normalizedHost := hostname.map Char.toLower
  let normalizedPattern := pattern₀.map Char.toLower
  if normalizedHost = normalizedPattern then true
  else if ['*', '.'].isPrefixOf normalizedPattern then
    let suffix := normalizedPattern.drop 1
    if suffix.isSuffixOf normalizedHost ∧ normalizedHost.length > suffix.length then true
    else false
  else false

/-- `isDomainAllowed` of `src/validator.ts`: an empty allowlist denies,
otherwise any matching pattern allows. -/
def isDomainAllowed (hostname : Str) (allowedDomains : List Str) : Bool :=
  if allowedDomains.isEmpty then false
  else allowedDomains.any (fun pat => matchesDomain hostname pat)

/-- Expiration info (`src/types/results.ts`); `expiresAt` is the raw
payload value (`null` when absent). -/
structure ExpirationInfo where
  expiresAt : JsValue
  isExpired : Bool
  secondsRemaining : Option Int
  timeRemaining : Option Str

/-- `getExpirationInfo` of `src/validator.ts`: computed from the
permissive payload decode alone — no signature, revocation or claim
validation — with the raw `exp` compared against the (possibly injected)
current time without any clock-skew tolerance.  A non-numeric `exp`
yields `NaN` arithmetic in JavaScript (`isExpired` false); the model
leaves those fields `none`. -/
def getExpirationInfo (p : Platform) (timing : Option TimingOptions) (w : World)
    (token : Str) : Option ExpirationInfo :=
  match decodePayload p token with
  | none => none
  | some payload =>
    let currentTime := (timing.bind (fun t => t.currentTime)).getD w.now
    match jsGet payload kExp with
    | none =>
      some { expiresAt := .null, isExpired := false,
             secondsRemaining := none, timeRemaining := none }
    | some (.num exp) =>
      let secondsRemaining := exp - currentTime
      some { expiresAt := .num exp
             isExpired := secondsRemaining ≤ 0
             secondsRemaining := some secondsRemaining
             timeRemaining := some (formatDuration secondsRemaining) }
    | some other =>
      some { expiresAt := other, isExpired := false,
             secondsRemaining := none, timeRemaining := none }

/-- The error code of a failed validation outcome, if any. -/
def errorCodeOf : Except Unit ValidationResult → Option ErrorCode
  | .ok (.invalid e _ _) => some e.code
  | _ => none

/-- Whether a validation outcome is a success. -/
def isValidResult : Except Unit ValidationResult → Bool
  | .ok (.valid _ _) => true
  | _ => false

/-- The warning codes attached to a successful validation outcome. -/
def successWarningCodes : Except Unit ValidationResult → List WarningCode
  | .ok (.valid _ ws) => (ws.getD []).map (fun warning => warning.code)
  | _ => []

/-- The revocation reason string recorded in an error's details. -/
def revocationReasonOf (e : ValidationError) : Option Str :=
  match e.details with
  | none => none
  | some fields =>
    match lookupField fields ("reason".toList) with
    | some (.str s) => some s
    | _ => none

/-! Concrete fixtures used by witnesses and counterexamples.  The
platform oracles are small total functions; the object below plays both
header and payload for tokens whose two JSON segments decode to the same
bytes. -/

/-- The field list of a JSON object that is simultaneously a valid
header and a payload satisfying the default claims for realm `app1` at
injected time 1000. -/
def bigObjFields : List (Str × JsValue) :=
  [(kAlg, .str "EdDSA".toList), (kTyp, .str "JWT".toList), (kKwv, .num 1),
   (kIss, .str "keywrit".toList), (kAud, .str "app1".toList),
   (kExp, .num 2000), (kJti, .str "X".toList)]

/-- The object with those fields. -/
def bigObj : JsValue := .obj bigObjFields

/-- A platform whose JSON parse yields `bigObj` for every segment. -/
def pConc : Platform :=
  { utf8 := fun _ => [], utf8Encode := fun _ => [],
    parseJson := fun _ => some bigObj, isoOfMillis := fun _ => [] }

/-- A signature primitive that always accepts. -/
def primOk : VerifyPrim := fun _ _ _ => .ok true

/-- A signature primitive that always throws. -/
def primThrows : VerifyPrim := fun _ _ _ => .error ()

/-- A validator for realm `app1` with a static key, no revocation
source, no matchers, and injected current time 1000. -/
def vConc : ValidatorState :=
  { realm := "app1".toList, publicKey := [], revocationUrl := none,
    revocation := none, requiredFlags := none, requiredKind := none,
    requiredFeatures := none,
    timing := some { clockSkew := none, currentTime := some 1000 },
    allowNoExpiration := none }

/-- A world whose revocation fetch fails at the transport layer. -/
def wConc : World := { now := 0, fetch := .networkError }

/-- A token whose three segments all base64url-decode (the third to
exactly 64 zero bytes). -/
def tokenGood : Str := 'a' :: '.' :: 'a' :: '.' :: List.replicate 86 'A'

/-- A token whose signature segment decodes to zero bytes. -/
def tokenShortSig : Str := ['a', '.', 'a', '.', 'a']

/-- A well-formed header object alone. -/
def hdrObj : JsValue := .obj
  [(kAlg, .str "EdDSA".toList), (kTyp, .str "JWT".toList), (kKwv, .num 1)]

/-- A platform under which one-byte segments parse to `hdrObj` and
zero-byte segments parse to JSON `null`. -/
def pNullPayload : Platform :=
  { utf8 := fun b => if b.isEmpty then [] else ['h'],
    utf8Encode := fun _ => [],
    parseJson := fun s => if s.isEmpty then some .null else some hdrObj,
    isoOfMillis := fun _ => [] }

/-- A token whose header segment decodes to one byte and whose payload
segment decodes to zero bytes (hence, under `pNullPayload`, to JSON
`null`). -/
def tokenNullPayload : Str := ['a', 'a', '.', 'a', '.', 'a']

/-- A platform under which zero-byte segments parse to an empty JSON
array. -/
def pArrPayload : Platform :=
  { utf8 := fun b => if b.isEmpty then [] else ['h'],
    utf8Encode := fun _ => [],
    parseJson := fun s => if s.isEmpty then some (.arr []) else some hdrObj,
    isoOfMillis := fun _ => [] }

/-- A token with a one-byte header segment, zero-byte payload segment,
and a 64-byte signature segment. -/
def tokenArrPayload : Str := 'a' :: 'a' :: '.' :: 'a' :: '.' :: List.replicate 86 'A'

/-- A payload carrying an empty-string `jti` and subject `alice`. -/
def revPayload : JsValue := .obj
  [(kJti, .str []), (kSub, .str "alice".toList)]

/-- A revocation list containing the empty-string id and subject
`alice`. -/
def revList : RevocationList := { jti := some [[]], sub := some ["alice".toList] }

/-- `vConc` with the static revocation list `revList`. -/
def vRev : ValidatorState := { vConc with revocation := some revList }

/-- A payload with a nonempty revoked id and a revoked subject. -/
def revPayloadBoth : JsValue := .obj
  [(kJti, .str "X".toList), (kSub, .str "alice".toList)]

/-- A revocation list containing both the id `X` and subject `alice`. -/
def revListBoth : RevocationList :=
  { jti := some ["X".toList], sub := some ["alice".toList] }

/-- `vConc` with the static revocation list `revListBoth`. -/
def vRevBoth : ValidatorState := { vConc with revocation := some revListBoth }

/-- `vConc` with revocation configured by URL. -/
def vUrl : ValidatorState := { vConc with revocationUrl := some ['u'] }

/-- A world whose revocation fetch succeeds with id `X` listed. -/
def wFetched : World :=
  { now := 0, fetch := .fetched { jti := some ["X".toList], sub := none } }

/-- A platform whose segments parse to a payload with neither `iss` nor
`aud`, so that claim evaluation collects two errors at once. -/
def pTwoErr : Platform :=
  { utf8 := fun _ => [], utf8Encode := fun _ => [],
    parseJson := fun _ => some (JsValue.obj
      [(kAlg, .str "EdDSA".toList), (kTyp, .str "JWT".toList), (kKwv, .num 1),
       (kExp, .num 2000)]),
    isoOfMillis := fun _ => [] }

/-- The result `validate` produces under `pTwoErr` on `tokenGood`. -/
def twoErrResult : ValidationResult :=
  match performValidation pTwoErr primOk vConc wConc tokenGood with
  | .ok r => r
  | .error _ => .valid .null none

/-- A platform like `pConc` whose segments parse to a payload expiring
at 970, thirty seconds before the injected current time 1000. -/
def pSkew : Platform :=
  { utf8 := fun _ => [], utf8Encode := fun _ => [],
    parseJson := fun _ => some (JsValue.obj
      [(kAlg, .str "EdDSA".toList), (kTyp, .str "JWT".toList), (kKwv, .num 1),
       (kIss, .str "keywrit".toList), (kAud, .str "app1".toList),
       (kExp, .num 970)]),
    isoOfMillis := fun _ => [] }

/-- The specification's reading of the domain matcher: case-insensitive
equality, or a wildcard pattern `*.suffix` where the hostname ends in
`.suffix` with strictly more characters than that dotted suffix (so the
bare suffix is excluded). -/
def matchesDomainSpec (hostname pattern₀ : Str) : Prop :=
  hostname.map Char.toLower = pattern₀.map Char.toLower ∨
  ∃ s : Str, pattern₀.map Char.toLower = '*' :: '.' :: s ∧
    ('.' :: s) <:+ hostname.map Char.toLower ∧
    ('.' :: s).length < (hostname.map Char.toLower).length

/-- The signature-verification-failed error record produced by
`verifySignature`. -/
def sigVerificationFailedError : ValidationError :=
  createError .SIGNATURE_VERIFICATION_FAILED "JWT signature verification failed".toList none

/-- The result-shape invariant of C8: a result is either a success or a
failure, and a failure's supplementary error list, when present, has the
primary error as its first element. -/
def errorsListConsistent : ValidationResult → Prop
  | .valid _ _ => True
  | .invalid e errs _ => ∀ l, errs = some l → l.head? = some e

/-- C2 (confirmed): `verifySignature` never lets an exception escape —
for every decoded token, public key and primitive behaviour, the outcome
is a typed result, and when the underlying signature primitive throws on
its inputs the outcome is the `SIGNATURE_VERIFICATION_FAILED` failure,
indistinguishable from an ordinary failed verification. -/
theorem c2_verify_signature_never_throws (p : Platform) (prim : VerifyPrim)
    (decoded : DecodedJWT) (publicKey : Bytes) :
    (verifySignature p prim decoded publicKey = .success ∨
      verifySignature p prim decoded publicKey = .failure sigVerificationFailedError) ∧
    (prim decoded.signature (p.utf8Encode decoded.signingInput) publicKey = .error () →
      verifySignature p prim decoded publicKey = .failure sigVerificationFailedError) := by
  constructor
  · unfold verifySignature ed25519Verify sigVerificationFailedError
    cases hp : prim decoded.signature (p.utf8Encode decoded.signingInput) publicKey with
    | ok b => cases b <;> simp [hp]
    | error e => simp [hp]
  · intro h
    unfold verifySignature ed25519Verify sigVerificationFailedError
    simp [h]

/-- C2 witness: a primitive that throws, folded into the typed
verification failure. -/
theorem c2_witness :
    primThrows ([] : Bytes) (pConc.utf8Encode []) ([] : Bytes) = .error () ∧
    verifySignature pConc primThrows
      { header := .null, payload := .null, signature := [], signingInput := [] } [] =
      .failure sigVerificationFailedError :=
  ⟨rfl, (c2_verify_signature_never_throws pConc primThrows
    { header := .null, payload := .null, signature := [], signingInput := [] } []).2 rfl⟩

/-- C7 (confirmed): `matchesDomain` returns true exactly on a
case-insensitive exact match or a `*.suffix` pattern whose dotted suffix
properly ends the hostname, and the three specification examples hold. -/
theorem c7_domain_matcher :
    (∀ hostname pattern₀ : Str,
      matchesDomain hostname pattern₀ = true ↔ matchesDomainSpec hostname pattern₀) ∧
    matchesDomain ("a.example.org".toList) ("*.example.org".toList) = true ∧
    matchesDomain ("example.org".toList) ("*.example.org".toList) = false ∧
    matchesDomain ("EXAMPLE.ORG".toList) ("example.org".toList) = true := by
  refine ⟨?_, by decide, by decide, by decide⟩
  intro hostname pattern₀
  unfold matchesDomain matchesDomainSpec
  by_cases h1 : hostname.map Char.toLower = pattern₀.map Char.toLower
  · simp [h1]
  · rw [if_neg h1]
    by_cases h2 : ['*', '.'] <+: pattern₀.map Char.toLower
    · obtain ⟨t, ht⟩ := h2
      have hP : pattern₀.map Char.toLower = '*' :: '.' :: t := ht.symm
      have hp : (['*', '.'].isPrefixOf (pattern₀.map Char.toLower)) = true := by
        rw [ List.isPrefixOf_iff_prefix]
        exact ⟨t, ht⟩
      rw [if_pos hp, hP]
      simp only [List.drop_succ_cons, List.drop_zero]
      constructor
      · intro h
        by_cases h3 : (('.' :: t).isSuffixOf (hostname.map Char.toLower)) = true ∧
            (hostname.map Char.toLower).length > ('.' :: t).length
        · refine Or.inr ⟨t, rfl, ?_, h3.2⟩
          exact (List.isSuffixOf_iff_suffix).mp h3.1
        · rw [if_neg h3] at h
          exact absurd h (by simp)
      · rintro (h | ⟨s, hs, hsuf, hlen⟩)
        · exact absurd (h.trans hP.symm) h1
        · obtain rfl : s = t := by
            have := hs
            simp only [List.cons.injEq] at this
            exact this.2.2.symm
          rw [if_pos ⟨(List.isSuffixOf_iff_suffix).mpr hsuf, hlen⟩]
    · have hp : (['*', '.'].isPrefixOf (pattern₀.map Char.toLower)) = false := by
        rw [Bool.eq_false_iff]
        intro hc
        exact h2 (( List.isPrefixOf_iff_prefix).mp hc)
      rw [hp]
      simp only [Bool.false_eq_true, if_false, false_iff]
      rintro (h | ⟨s, hs, _, _⟩)
      · exact h1 h
      · exact h2 (by rw [hs]; exact ⟨s, rfl⟩)

/-- Shape of the expiration block for a numeric `exp`. -/
theorem expirationPart_num (p : Platform) (payload : JsValue) (skew t : Int)
    (allow : Bool) (e : Int) (hexp : jsGet payload kExp = some (.num e)) :
    expirationPart p payload skew t allow =
      ((if isPast e t skew then [tokenExpiredError p e t] else []),
       (if !isPast e t skew && isExpiringSoon e t EXPIRING_SOON_THRESHOLD then
          [expiringSoonWarning e t] else []) ++
       (if skew > 0 ∧ e < t ∧ e ≥ t - skew then [clockSkewWarning skew] else [])) := by
  unfold expirationPart
  rw [hexp]

/-- Every error the not-before block produces is `TOKEN_NOT_YET_VALID`. -/
theorem nbfPart_code (p : Platform) (payload : JsValue) (skew t : Int) :
    ∀ err ∈ nbfPart p payload skew t, err.code = ErrorCode.TOKEN_NOT_YET_VALID := by
  intro err herr
  unfold nbfPart at herr
  split at herr
  · split at herr
    · simp only [List.mem_singleton] at herr
      subst herr
      rfl
    · simp at herr
  · simp at herr

/-- C4 (confirmed): with `skew` the configured clock skew (default 60)
and `t` the (possibly injected) current time, a numeric `exp` fails with
`TOKEN_EXPIRED` exactly when `t > exp + skew`; in the skew window
`exp < t ≤ exp + skew` no expiration error is produced and a
`CLOCK_SKEW_APPLIED` warning is emitted; and with no `nbf`,
`exp = t - 30` and `skew = 60` the timing stage produces no error and
that warning. -/
theorem c4_expiration_clock_skew (p : Platform) (payload : JsValue)
    (options : TimingOptions) (allowNoExpiration : Bool) (w : World) (e skew t : Int)
    (hexp : jsGet payload kExp = some (.num e))
    (hskew : options.clockSkew.getD DEFAULT_CLOCK_SKEW = skew)
    (ht : options.currentTime.getD w.now = t) :
    ((∃ err ∈ (validateTimingClaims p payload options allowNoExpiration w).1,
        err.code = ErrorCode.TOKEN_EXPIRED) ↔ t > e + skew) ∧
    (e < t → t ≤ e + skew →
      (∀ err ∈ (validateTimingClaims p payload options allowNoExpiration w).1,
        err.code ≠ ErrorCode.TOKEN_EXPIRED) ∧
      ∃ warning ∈ (validateTimingClaims p payload options allowNoExpiration w).2,
        warning.code = WarningCode.CLOCK_SKEW_APPLIED) ∧
    (jsGet payload kNbf = none → e = t - 30 → skew = 60 →
      (validateTimingClaims p payload options allowNoExpiration w).1 = [] ∧
      ∃ warning ∈ (validateTimingClaims p payload options allowNoExpiration w).2,
        warning.code = WarningCode.CLOCK_SKEW_APPLIED) := by
  have hvt : validateTimingClaims p payload options allowNoExpiration w =
      ((expirationPart p payload skew t allowNoExpiration).1 ++ nbfPart p payload skew t,
       (expirationPart p payload skew t allowNoExpiration).2) := by
    unfold validateTimingClaims
    rw [hskew, ht]
  rw [hvt, expirationPart_num p payload skew t allowNoExpiration e hexp]
  refine ⟨?_, ?_, ?_⟩
  · constructor
    · rintro ⟨err, herr, hcode⟩
      rw [List.mem_append] at herr
      rcases herr with herr | herr
      · by_cases hpast : isPast e t skew = true
        · simp only [isPast, decide_eq_true_eq] at hpast
          omega
        · rw [if_neg hpast] at herr
          simp at herr
      · exact absurd hcode (by rw [nbfPart_code p payload skew t err herr]; simp)
    · intro hgt
      have hpast : isPast e t skew = true := by
        simp only [isPast, decide_eq_true_eq]
        omega
      exact ⟨tokenExpiredError p e t,
        List.mem_append_left _ (by rw [if_pos hpast]; simp), rfl⟩
  · intro hlt hle
    have hpast : ¬ (isPast e t skew = true) := by
      simp only [isPast, decide_eq_true_eq]
      omega
    constructor
    · intro err herr
      rw [List.mem_append] at herr
      rcases herr with herr | herr
      · rw [if_neg hpast] at herr
        simp at herr
      · rw [nbfPart_code p payload skew t err herr]
        simp
    · refine ⟨clockSkewWarning skew, List.mem_append_right _ ?_, rfl⟩
      rw [if_pos ⟨by omega, by omega, by omega⟩]
      simp
  · intro hnbf he hs
    subst he hs
    have hpast : ¬ (isPast (t - 30) t 60 = true) := by
      simp only [isPast, decide_eq_true_eq]
      omega
    have hnbf2 : nbfPart p payload 60 t = [] := by
      unfold nbfPart
      rw [hnbf]
    constructor
    · rw [hnbf2, if_neg hpast]
      simp
    · refine ⟨clockSkewWarning 60, List.mem_append_right _ ?_, rfl⟩
      rw [if_pos ⟨by omega, by omega, by omega⟩]
      simp

/-- C4 witness: at `exp = 70`, injected time 100 and skew 60, the skew
window applies — no timing error and a clock-skew warning. -/
theorem c4_witness :
    jsGet (JsValue.obj [(kExp, .num 70)]) kExp = some (.num 70) ∧
    ((validateTimingClaims pConc (.obj [(kExp, .num 70)])
        { clockSkew := some 60, currentTime := some 100 } false wConc).1 = [] ∧
      ∃ warning ∈ (validateTimingClaims pConc (.obj [(kExp, .num 70)])
        { clockSkew := some 60, currentTime := some 100 } false wConc).2,
        warning.code = WarningCode.CLOCK_SKEW_APPLIED) :=
  ⟨rfl,
    (c4_expiration_clock_skew pConc (.obj [(kExp, .num 70)])
      { clockSkew := some 60, currentTime := some 100 } false wConc 70 60 100
      rfl rfl rfl).2.2 rfl rfl rfl⟩

/-- C5 (corrected): counterexample.  The token's empty-string `jti` and
its `sub` both appear in the static revocation list, yet the single
reported error carries reason `sub_revoked`, not `jti_revoked`: the
truthiness guard `payload.jti && ...` skips an empty-string id. -/
theorem c5_counterexample :
    jsGet revPayload kJti = some (.str []) ∧
    revList.jti = some [([] : Str)] ∧
    jsGet revPayload kSub = some (.str "alice".toList) ∧
    revList.sub = some ["alice".toList] ∧
    (checkRevocation vRev wConc revPayload).map revocationReasonOf =
      some (some ("sub_revoked".toList)) :=
  ⟨rfl, rfl, rfl, rfl, by decide⟩

/-- C5 (corrected, amended): with a static revocation list, the checker
returns at most one error (its result type is a single optional error);
a nonempty `jti` appearing in the list is reported with reason
`jti_revoked` regardless of whether `sub` also appears; and only when
the `jti` test misses is `sub` consulted, a nonempty listed subject
giving reason `sub_revoked`.  A token whose `jti` (or `sub`) is the
empty string is treated by the truthiness guard as having none. -/
theorem c5_amended (v : ValidatorState) (w : World) (payload : JsValue)
    (list : RevocationList)
    (hurl : jsTruthyStr v.revocationUrl = false)
    (hrev : v.revocation = some list) :
    (∀ j js, jsGet payload kJti = some (.str j) → j ≠ [] → list.jti = some js →
      j ∈ js →
      ∃ err, checkRevocation v w payload = some err ∧
        err.code = ErrorCode.TOKEN_REVOKED ∧
        revocationReasonOf err = some ("jti_revoked".toList)) ∧
    (revocationHit list.jti (jsGet payload kJti) = false →
      ∀ s ss, jsGet payload kSub = some (.str s) → s ≠ [] → list.sub = some ss →
      s ∈ ss →
      ∃ err, checkRevocation v w payload = some err ∧
        err.code = ErrorCode.TOKEN_REVOKED ∧
        revocationReasonOf err = some ("sub_revoked".toList)) := by
  have hres : checkRevocation v w payload =
      (if revocationHit list.jti (jsGet payload kJti) then
        some (jtiRevokedError (jsGet payload kJti))
       else if revocationHit list.sub (jsGet payload kSub) then
        some (subRevokedError (jsGet payload kSub))
       else none) := by
    unfold checkRevocation
    rw [hurl, hrev]
    simp
  constructor
  · intro j js hj hjne hljti hmem
    have hhit : revocationHit list.jti (jsGet payload kJti) = true := by
      rw [hj, hljti]
      unfold revocationHit jsTruthyOpt jsTruthy
      simp only [Bool.and_eq_true]
      refine ⟨by simpa using hjne, ?_⟩
      simpa [List.contains, List.elem_iff] using hmem
    refine ⟨jtiRevokedError (jsGet payload kJti), ?_, rfl, rfl⟩
    rw [hres, if_pos hhit]
  · intro hmiss s ss hs hsne hlsub hmem
    have hhit : revocationHit list.sub (jsGet payload kSub) = true := by
      rw [hs, hlsub]
      unfold revocationHit jsTruthyOpt jsTruthy
      simp only [Bool.and_eq_true]
      refine ⟨by simpa using hsne, ?_⟩
      simpa [List.contains, List.elem_iff] using hmem
    refine ⟨subRevokedError (jsGet payload kSub), ?_, rfl, rfl⟩
    rw [hres, if_neg (by rw [hmiss]; simp), if_pos hhit]

/-- C5 witness: with both the nonempty id `X` and subject `alice`
listed, the single error reported has reason `jti_revoked`. -/
theorem c5_witness :
    ∃ err, checkRevocation vRevBoth wConc revPayloadBoth = some err ∧
      err.code = ErrorCode.TOKEN_REVOKED ∧
      revocationReasonOf err = some ("jti_revoked".toList) :=
  (c5_amended vRevBoth wConc revPayloadBoth revListBoth rfl rfl).1
    ("X".toList) [("X".toList)] rfl (by decide) rfl (by decide)

/-- With a configured revocation URL and a failing fetch, the checker
reports nothing. -/
theorem checkRevocation_fail_open (v : ValidatorState) (w : World)
    (hurl : jsTruthyStr v.revocationUrl = true)
    (hfail : ∀ list, w.fetch ≠ .fetched list) :
    ∀ payload, checkRevocation v w payload = none := by
  intro payload
  cases hf : w.fetch with
  | fetched list => exact absurd hf (hfail list)
  | networkError => unfold checkRevocation fetchRevocationList; simp [hurl, hf]
  | httpFailure => unfold checkRevocation fetchRevocationList; simp [hurl, hf]
  | parseFailure => unfold checkRevocation fetchRevocationList; simp [hurl, hf]

/-- A validator without any revocation source never reports
revocation. -/
theorem checkRevocation_none (v : ValidatorState) (w : World)
    (hurl : jsTruthyStr v.revocationUrl = false)
    (hrev : v.revocation = none) :
    ∀ payload, checkRevocation v w payload = none := by
  intro payload
  unfold checkRevocation
  rw [hurl, hrev]
  simp

/-- C6 (confirmed): when revocation is configured by URL and the fetch
throws, returns a non-success status, or fails to parse, the checker
treats the token as unrevoked and the whole validation behaves exactly
as if no revocation source were configured — so an otherwise-valid
token validates successfully. -/
theorem c6_revocation_fail_open (p : Platform) (prim : VerifyPrim)
    (v : ValidatorState) (w : World) (token : Str)
    (hurl : jsTruthyStr v.revocationUrl = true)
    (hfail : ∀ list, w.fetch ≠ .fetched list) :
    (∀ payload, checkRevocation v w payload = none) ∧
    performValidation p prim v w token =
      performValidation p prim
        { v with revocationUrl := none, revocation := none } w token := by
  refine ⟨checkRevocation_fail_open v w hurl hfail, ?_⟩
  unfold performValidation
  cases hdec : decodeJWT p token with
  | error e => rfl
  | ok dr =>
    cases dr with
    | failure msg => rfl
    | success decoded =>
      dsimp only
      rw [checkRevocation_fail_open v w hurl hfail decoded.payload,
        checkRevocation_none { v with revocationUrl := none, revocation := none } w
          rfl rfl decoded.payload]

/-- C6 witness: a token that validates successfully when the revocation
fetch fails at the transport layer, although the very same token is
rejected as `TOKEN_REVOKED` when the fetch succeeds and lists its id. -/
theorem c6_witness :
    jsTruthyStr vUrl.revocationUrl = true ∧
    performValidation pConc primOk vUrl wConc tokenGood =
      performValidation pConc primOk
        { vUrl with revocationUrl := none, revocation := none } wConc tokenGood ∧
    isValidResult (performValidation pConc primOk vUrl wConc tokenGood) = true ∧
    jsGet bigObj kJti = some (.str "X".toList) ∧
    errorCodeOf (performValidation pConc primOk vUrl wFetched tokenGood) =
      some ErrorCode.TOKEN_REVOKED :=
  ⟨rfl,
   (c6_revocation_fail_open pConc primOk vUrl wConc tokenGood rfl
     (fun list h => by cases h)).2,
   by decide, rfl, by decide⟩

/-- Without a revocation URL the checker never consults the world. -/
theorem checkRevocation_world_indep (v : ValidatorState) (w₁ w₂ : World)
    (hurl : jsTruthyStr v.revocationUrl = false) (payload : JsValue) :
    checkRevocation v w₁ payload = checkRevocation v w₂ payload := by
  unfold checkRevocation
  simp [hurl]

/-- With an injected current time the timing stage never consults the
wall clock. -/
theorem validateTimingClaims_time_indep (p : Platform) (payload : JsValue)
    (options : TimingOptions) (allow : Bool) (w₁ w₂ : World) (t : Int)
    (hct : options.currentTime = some t) :
    validateTimingClaims p payload options allow w₁ =
      validateTimingClaims p payload options allow w₂ := by
  unfold validateTimingClaims
  rw [hct]
  rfl

/-- C9 (confirmed): with a static public key (resolved at construction),
no revocation URL (so a static list or none) and an injected current
time, `validate` is a function of the token and configuration alone —
two calls under arbitrarily different worlds (wall clock, fetch
behaviour) return identical results. -/
theorem c9_deterministic (p : Platform) (prim : VerifyPrim) (v : ValidatorState)
    (token : Str) (opts : TimingOptions) (t : Int) (w₁ w₂ : World)
    (hurl : jsTruthyStr v.revocationUrl = false)
    (htiming : v.timing = some opts) (hct : opts.currentTime = some t) :
    performValidation p prim v w₁ token = performValidation p prim v w₂ token := by
  unfold performValidation
  cases hdec : decodeJWT p token with
  | error e => rfl
  | ok dr =>
    cases dr with
    | failure msg => rfl
    | success decoded =>
      dsimp only
      cases hv : verifySignature p prim decoded v.publicKey with
      | failure err => rfl
      | success =>
        rw [checkRevocation_world_indep v w₁ w₂ hurl decoded.payload]
        cases hcr : checkRevocation v w₂ decoded.payload with
        | some err => rfl
        | none =>
          dsimp only
          have htime := validateTimingClaims_time_indep p decoded.payload opts
            (v.allowNoExpiration.getD false) w₁ w₂ t hct
          simp only [htiming, Option.getD_some, htime]

/-- C9 witness: two validations of the same token under two different
worlds coincide. -/
theorem c9_witness :
    performValidation pConc primOk vConc wConc tokenGood =
      performValidation pConc primOk vConc wFetched tokenGood ∧
    isValidResult (performValidation pConc primOk vConc wConc tokenGood) = true :=
  ⟨c9_deterministic pConc primOk vConc tokenGood
      { clockSkew := none, currentTime := some 1000 } 1000 wConc wFetched rfl rfl rfl,
   by decide⟩

/-- The aggregation block always satisfies the result-shape
invariant. -/
theorem aggregateResults_consistent (payload : JsValue) (es : List ValidationError)
    (ws : List ValidationWarning) :
    errorsListConsistent (aggregateResults payload es ws) := by
  cases es with
  | nil => trivial
  | cons e rest =>
    intro l hl
    split at hl
    · exact absurd hl (by simp)
    · rw [Option.some.injEq] at hl
      subst hl
      rfl

/-- C8 (confirmed): every result `validate` actually produces populates
exactly one variant of the tagged union, and whenever the supplementary
`errors` list is present its first element is the primary `error`. -/
theorem c8_result_invariant (p : Platform) (prim : VerifyPrim) (v : ValidatorState)
    (w : World) (token : Str) (r : ValidationResult)
    (h : performValidation p prim v w token = .ok r) :
    ((∃ license warnings, r = .valid license warnings) ∨
      ∃ err errs unverified, r = .invalid err errs unverified) ∧
    errorsListConsistent r := by
  constructor
  · cases r with
    | valid license warnings => exact Or.inl ⟨license, warnings, rfl⟩
    | invalid err errs unverified => exact Or.inr ⟨err, errs, unverified, rfl⟩
  · unfold performValidation at h
    split at h
    · exact absurd h (by simp)
    · rw [Except.ok.injEq] at h
      subst h
      intro l hl
      exact absurd hl (by simp)
    · split at h
      · rw [Except.ok.injEq] at h
        subst h
        intro l hl
        exact absurd hl (by simp)
      · split at h
        · rw [Except.ok.injEq] at h
          subst h
          intro l hl
          exact absurd hl (by simp)
        · split at h
          · exact absurd h (by simp)
          · have h2 := Except.ok.inj h
            subst h2
            exact aggregateResults_consistent _ _ _

/-- C8 witness: a validation failing on both issuer and audience returns
a failure whose supplementary error list is headed by the primary
error. -/
theorem c8_witness :
    performValidation pTwoErr primOk vConc wConc tokenGood = Except.ok twoErrResult ∧
    errorCodeOf (performValidation pTwoErr primOk vConc wConc tokenGood) =
      some ErrorCode.INVALID_ISSUER ∧
    errorsListConsistent twoErrResult :=
  ⟨rfl, by decide,
   (c8_result_invariant pTwoErr primOk vConc wConc tokenGood twoErrResult rfl).2⟩

/-- C10 (confirmed): `getExpirationInfo` is computed from the permissive
payload decode alone — its model takes no signature primitive, key or
revocation input at all — so every token whose payload segment decodes
to a JSON object yields a non-null result, and for a numeric `exp` it
reports `isExpired` true exactly when `exp - currentTime ≤ 0`, with no
clock-skew tolerance. -/
theorem c10_expiration_info (p : Platform) (timing : Option TimingOptions)
    (w : World) (token : Str) (payload : JsValue)
    (hdec : decodePayload p token = some payload) :
    (getExpirationInfo p timing w token).isSome = true ∧
    (∀ e : Int, jsGet payload kExp = some (.num e) →
      getExpirationInfo p timing w token = some
        { expiresAt := .num e
          isExpired := e - ((timing.bind fun t => t.currentTime).getD w.now) ≤ 0
          secondsRemaining := some (e - ((timing.bind fun t => t.currentTime).getD w.now))
          timeRemaining :=
            some (formatDuration (e - ((timing.bind fun t => t.currentTime).getD w.now))) }) ∧
    (jsGet payload kExp = none →
      getExpirationInfo p timing w token = some
        { expiresAt := .null, isExpired := false,
          secondsRemaining := none, timeRemaining := none }) := by
  refine ⟨?_, ?_, ?_⟩
  · unfold getExpirationInfo
    rw [hdec]
    cases hexp : jsGet payload kExp with
    | none => simp [hexp]
    | some v => cases v <;> simp [hexp]
  · intro e hexp
    unfold getExpirationInfo
    rw [hdec]
    dsimp only
    rw [hexp]
  · intro hexp
    unfold getExpirationInfo
    rw [hdec]
    dsimp only
    rw [hexp]

/-- C10 witness: the skew-window token (`exp` thirty seconds before the
injected time) is accepted by `validate` with a `CLOCK_SKEW_APPLIED`
warning, yet `getExpirationInfo` reports it as already expired. -/
theorem c10_witness :
    decodePayload pSkew tokenGood = some (JsValue.obj
      [(kAlg, .str "EdDSA".toList), (kTyp, .str "JWT".toList), (kKwv, .num 1),
       (kIss, .str "keywrit".toList), (kAud, .str "app1".toList),
       (kExp, .num 970)]) ∧
    (getExpirationInfo pSkew vConc.timing wConc tokenGood).isSome = true ∧
    ((getExpirationInfo pSkew vConc.timing wConc tokenGood).map
      (fun info => info.isExpired)) = some true ∧
    isValidResult (performValidation pSkew primOk vConc wConc tokenGood) = true ∧
    successWarningCodes (performValidation pSkew primOk vConc wConc tokenGood) =
      [WarningCode.CLOCK_SKEW_APPLIED] :=
  ⟨rfl,
   (c10_expiration_info pSkew vConc.timing wConc tokenGood _ rfl).1,
   by decide, by decide, by decide⟩

/-- Digit characters are not alphabetic. -/
theorem digitChar_not_alpha (n : Nat) : (digitChar n).isAlpha = false := by
  unfold digitChar
  have h : n % 10 < 10 := Nat.mod_lt _ (by omega)
  generalize n % 10 = m at h ⊢
  interval_cases m <;> decide

/-- No character of a decimal rendering is alphabetic. -/
theorem natDigitsAux_not_alpha :
    ∀ fuel n : Nat, ∀ c ∈ natDigitsAux fuel n, c.isAlpha = false := by
  intro fuel
  induction fuel with
  | zero =>
    intro n c hc
    simp [natDigitsAux] at hc
  | succ fuel ih =>
    intro n c hc
    simp only [natDigitsAux] at hc
    split at hc
    · rw [List.mem_singleton] at hc
      subst hc
      exact digitChar_not_alpha n
    · rw [List.mem_append] at hc
      rcases hc with hc | hc
      · exact ih _ c hc
      · rw [List.mem_singleton] at hc
        subst hc
        exact digitChar_not_alpha _

/-- No character of `natDigits n` is alphabetic. -/
theorem natDigits_not_alpha (n : Nat) : ∀ c ∈ natDigits n, c.isAlpha = false :=
  natDigitsAux_not_alpha _ _

/-- A keyword ending in an alphabetic character that is not a substring
of `a` is not a substring of `a ++ d` either, when `d` (a rendered
number) has no alphabetic characters: the keyword cannot overlap the
appended digits. -/
theorem not_infix_append_of_last_alpha (k₀ : Str) (c : Char) (a d : Str)
    (hc : c.isAlpha = true)
    (hfix : ¬ (k₀ ++ [c]) <:+: a) (hd : ∀ x ∈ d, x.isAlpha = false) :
    ¬ (k₀ ++ [c]) <:+: a ++ d := by
  rintro ⟨l, r, hl⟩
  by_cases hlen : d.length ≤ r.length
  · have hlen2 : (r.drop (r.length - d.length)).length = d.length := by
      rw [List.length_drop]
      omega
    have heq : (l ++ (k₀ ++ [c]) ++ r.take (r.length - d.length)) ++
        r.drop (r.length - d.length) = a ++ d := by
      calc (l ++ (k₀ ++ [c]) ++ r.take (r.length - d.length)) ++
            r.drop (r.length - d.length)
          = l ++ (k₀ ++ [c]) ++
            (r.take (r.length - d.length) ++ r.drop (r.length - d.length)) := by
            simp [List.append_assoc]
        _ = l ++ (k₀ ++ [c]) ++ r := by rw [List.take_append_drop]
        _ = a ++ d := hl
    obtain ⟨ha, -⟩ := List.append_inj' heq hlen2
    exact hfix ⟨l, r.take (r.length - d.length), ha⟩
  · push_neg at hlen
    have hsuf : ([c] ++ r) <:+ a ++ d := ⟨l ++ k₀, by rw [← hl]; simp [List.append_assoc]⟩
    have hdsuf : d <:+ a ++ d := List.suffix_append a d
    have hsuf2 : ([c] ++ r) <:+ d := by
      have h1 := ( List.reverse_prefix).mpr hsuf
      have h2 := ( List.reverse_prefix).mpr hdsuf
      have h3 := List.prefix_of_prefix_length_le h1 h2 (by simp; omega)
      exact ( List.reverse_prefix).mp h3
    have hcd : c ∈ d := hsuf2.subset (by simp)
    rw [hd c hcd] at hc
    exact Bool.noConfusion hc

/-- The signature-length decode message is classified as
`MALFORMED_TOKEN`: it contains none of the classifier's keywords,
whatever the byte count. -/
theorem classify_sig_length (n : Nat) :
    classifyDecodeError
        ("Invalid signature length: expected 64 bytes, got ".toList ++ natDigits n) =
      malformedToken
        ("Invalid signature length: expected 64 bytes, got ".toList ++ natDigits n) := by
  have hd := natDigits_not_alpha n
  have h1 : ¬ ("structure".toList <:+:
      ("Invalid signature length: expected 64 bytes, got ".toList ++ natDigits n)) :=
    not_infix_append_of_last_alpha ("structur".toList) 'e'
      ("Invalid signature length: expected 64 bytes, got ".toList) (natDigits n)
      (by decide) (by decide) hd
  have h2 : ¬ ("algorithm".toList <:+:
      ("Invalid signature length: expected 64 bytes, got ".toList ++ natDigits n)) :=
    not_infix_append_of_last_alpha ("algorith".toList) 'm'
      ("Invalid signature length: expected 64 bytes, got ".toList) (natDigits n)
      (by decide) (by decide) hd
  have h3 : ¬ ("type".toList <:+:
      ("Invalid signature length: expected 64 bytes, got ".toList ++ natDigits n)) :=
    not_infix_append_of_last_alpha ("typ".toList) 'e'
      ("Invalid signature length: expected 64 bytes, got ".toList) (natDigits n)
      (by decide) (by decide) hd
  have h4 : ¬ ("version".toList <:+:
      ("Invalid signature length: expected 64 bytes, got ".toList ++ natDigits n)) :=
    not_infix_append_of_last_alpha ("versio".toList) 'n'
      ("Invalid signature length: expected 64 bytes, got ".toList) (natDigits n)
      (by decide) (by decide) hd
  have h5 : ¬ ("kwv".toList <:+:
      ("Invalid signature length: expected 64 bytes, got ".toList ++ natDigits n)) :=
    not_infix_append_of_last_alpha ("kw".toList) 'v'
      ("Invalid signature length: expected 64 bytes, got ".toList) (natDigits n)
      (by decide) (by decide) hd
  have h6 : ¬ ("payload".toList <:+:
      ("Invalid signature length: expected 64 bytes, got ".toList ++ natDigits n)) :=
    not_infix_append_of_last_alpha ("payloa".toList) 'd'
      ("Invalid signature length: expected 64 bytes, got ".toList) (natDigits n)
      (by decide) (by decide) hd
  have h7 : ¬ ("header".toList <:+:
      ("Invalid signature length: expected 64 bytes, got ".toList ++ natDigits n)) :=
    not_infix_append_of_last_alpha ("heade".toList) 'r'
      ("Invalid signature length: expected 64 bytes, got ".toList) (natDigits n)
      (by decide) (by decide) hd
  unfold classifyDecodeError
  rw [if_neg h1,
    if_neg (by rintro (h | h | h | h); exacts [h2 h, h3 h, h4 h, h5 h]),
    if_neg (by rintro (h | h); exacts [h6 h, h7 h])]

/-- Reduction of `decodeJWT` past a valid header: with three segments
and a header carrying `alg = EdDSA`, `typ = JWT` and `kwv = 1`, decoding
continues with the payload and signature segments. -/
theorem decodeJWT_header_ok (p : Platform) (token hseg qseg sseg : Str) (hdr : JsValue)
    (hsplit : token.splitOn '.' = [hseg, qseg, sseg])
    (hhdr : segJson p hseg = some hdr)
    (halg : jsGet hdr kAlg = some (.str "EdDSA".toList))
    (htyp : jsGet hdr kTyp = some (.str "JWT".toList))
    (hkwv : jsGet hdr kKwv = some (.num 1)) :
    decodeJWT p token =
      (match segJson p qseg with
      | none => .ok (.failure "Failed to decode payload".toList)
      | some payload =>
        if ¬ jsIsObjectType payload then
          .ok (.failure "Payload must be a JSON object".toList)
        else
          match base64urlDecode sseg with
          | none => .ok (.failure "Failed to decode signature".toList)
          | some signature =>
            if signature.length ≠ 64 then
              .ok (.failure ("Invalid signature length: expected 64 bytes, got ".toList ++
                natDigits signature.length))
            else
              .ok (.success
                { header := hdr
                  payload := payload
                  signature := signature
                  signingInput := hseg ++ '.' :: qseg })) := by
  have hnn : isNullish hdr = false := by
    cases hdr <;> first
      | rfl
      | (exfalso; rw [show jsGet JsValue.null kAlg = none from rfl] at halg
         exact Option.noConfusion halg)
      | (exfalso; rw [show jsGet JsValue.undef kAlg = none from rfl] at halg
         exact Option.noConfusion halg)
  have e1 : jsEqStr (jsGet hdr kAlg) ("EdDSA".toList) = true := by
    rw [halg]
    simp [jsEqStr]
  have e2 : jsEqStr (jsGet hdr kTyp) ("JWT".toList) = true := by
    rw [htyp]
    simp [jsEqStr]
  have e3 : jsNumIncluded SUPPORTED_VERSIONS (JsValue.num 1) = true := rfl
  unfold decodeJWT
  rw [hsplit]
  simp only [hhdr, hnn, e1, e2, hkwv, e3, Bool.not_true, Bool.false_eq_true, if_false]

/-- C1 (corrected): counterexample.  A token whose first two segments
decode to a valid header and an object payload and whose third segment
decodes to 0 bytes (≠ 64) is rejected with `MALFORMED_TOKEN`, not the
claimed `INVALID_PAYLOAD`: the signature-length message contains none of
the classifier's keywords. -/
theorem c1_counterexample :
    tokenShortSig.splitOn '.' = [['a'], ['a'], ['a']] ∧
    segJson pConc ['a'] = some bigObj ∧
    jsGet bigObj kAlg = some (.str "EdDSA".toList) ∧
    jsGet bigObj kTyp = some (.str "JWT".toList) ∧
    jsGet bigObj kKwv = some (.num 1) ∧
    jsIsObjectType bigObj = true ∧
    base64urlDecode ['a'] = some [] ∧
    (([] : Bytes).length ≠ 64) ∧
    errorCodeOf (performValidation pConc primOk vConc wConc tokenShortSig) =
      some ErrorCode.MALFORMED_TOKEN ∧
    errorCodeOf (performValidation pConc primOk vConc wConc tokenShortSig) ≠
      some ErrorCode.INVALID_PAYLOAD :=
  ⟨by decide, rfl, rfl, rfl, rfl, rfl, rfl, by decide, by decide, by decide⟩

/-- C1 (corrected, amended): for every token whose first two segments
decode to a valid header and an object payload but whose third segment
decodes to raw bytes of a length other than 64, `validate` returns a
failure whose error code is `MALFORMED_TOKEN` — the signature-length
message matches none of the classifier's keywords, so it falls through
to the malformed-token default. -/
theorem c1_amended (p : Platform) (prim : VerifyPrim) (v : ValidatorState) (w : World)
    (token hseg qseg sseg : Str) (hdr pl : JsValue)
    (fields : List (Str × JsValue)) (sig : Bytes)
    (hsplit : token.splitOn '.' = [hseg, qseg, sseg])
    (hhdr : segJson p hseg = some hdr)
    (halg : jsGet hdr kAlg = some (.str "EdDSA".toList))
    (htyp : jsGet hdr kTyp = some (.str "JWT".toList))
    (hkwv : jsGet hdr kKwv = some (.num 1))
    (hpl : segJson p qseg = some pl)
    (hobj : pl = .obj fields)
    (hsig : base64urlDecode sseg = some sig)
    (hlen : sig.length ≠ 64) :
    errorCodeOf (performValidation p prim v w token) = some ErrorCode.MALFORMED_TOKEN := by
  subst hobj
  have hdec : decodeJWT p token = .ok (.failure
      ("Invalid signature length: expected 64 bytes, got ".toList ++
        natDigits sig.length)) := by
    rw [decodeJWT_header_ok p token hseg qseg sseg hdr hsplit hhdr halg htyp hkwv, hpl]
    dsimp only
    rw [show jsIsObjectType (JsValue.obj fields) = true from rfl]
    simp only [Bool.true_eq_false, not_false_eq_true, not_true, if_false, ite_false,
      Bool.not_true, if_true, ite_true]
    rw [hsig]
    dsimp only
    rw [if_pos hlen]
  unfold performValidation
  rw [hdec]
  dsimp only
  rw [classify_sig_length sig.length]
  rfl

/-- C1 witness: the amended statement at the concrete
counterexample-style input. -/
theorem c1_witness :
    errorCodeOf (performValidation pConc primOk vConc wConc tokenShortSig) =
      some ErrorCode.MALFORMED_TOKEN :=
  c1_amended pConc primOk vConc wConc tokenShortSig ['a'] ['a'] ['a'] bigObj bigObj
    bigObjFields [] (by decide) rfl rfl rfl rfl rfl rfl rfl (by decide)

/-- C3 (corrected): counterexample.  A token whose payload segment
decodes to JSON `null` (under a valid header) is rejected with
`MALFORMED_TOKEN`, not the claimed `INVALID_PAYLOAD`: the message
`Payload must be a JSON object` starts with a capital letter and misses
the classifier's case-sensitive `payload` test. -/
theorem c3_counterexample :
    tokenNullPayload.splitOn '.' = [['a', 'a'], ['a'], ['a']] ∧
    segJson pNullPayload ['a', 'a'] = some hdrObj ∧
    jsGet hdrObj kAlg = some (.str "EdDSA".toList) ∧
    jsGet hdrObj kTyp = some (.str "JWT".toList) ∧
    jsGet hdrObj kKwv = some (.num 1) ∧
    segJson pNullPayload ['a'] = some .null ∧
    jsIsObjectType .null = false ∧
    errorCodeOf (performValidation pNullPayload primOk vConc wConc tokenNullPayload) =
      some ErrorCode.MALFORMED_TOKEN ∧
    errorCodeOf (performValidation pNullPayload primOk vConc wConc tokenNullPayload) ≠
      some ErrorCode.INVALID_PAYLOAD :=
  ⟨by decide, rfl, rfl, rfl, rfl, rfl, rfl, by decide, by decide⟩

/-- C3 (corrected, amended): a payload segment that decodes to a scalar
or `null` makes `validate` fail with `MALFORMED_TOKEN` (the capitalized
message misses the classifier's case-sensitive `payload` keyword), and a
payload segment that decodes to an array is not rejected at all — the
decoder's `typeof` check treats arrays as objects and decoding
succeeds. -/
theorem c3_amended :
    (∀ (p : Platform) (prim : VerifyPrim) (v : ValidatorState) (w : World)
      (token hseg qseg sseg : Str) (hdr pl : JsValue),
      token.splitOn '.' = [hseg, qseg, sseg] →
      segJson p hseg = some hdr →
      jsGet hdr kAlg = some (.str "EdDSA".toList) →
      jsGet hdr kTyp = some (.str "JWT".toList) →
      jsGet hdr kKwv = some (.num 1) →
      segJson p qseg = some pl →
      jsIsObjectType pl = false →
      errorCodeOf (performValidation p prim v w token) =
        some ErrorCode.MALFORMED_TOKEN) ∧
    (∀ (p : Platform) (token hseg qseg sseg : Str) (hdr : JsValue)
      (xs : List JsValue) (sig : Bytes),
      token.splitOn '.' = [hseg, qseg, sseg] →
      segJson p hseg = some hdr →
      jsGet hdr kAlg = some (.str "EdDSA".toList) →
      jsGet hdr kTyp = some (.str "JWT".toList) →
      jsGet hdr kKwv = some (.num 1) →
      segJson p qseg = some (.arr xs) →
      base64urlDecode sseg = some sig →
      sig.length = 64 →
      decodeJWT p token = .ok (.success
        { header := hdr, payload := .arr xs, signature := sig,
          signingInput := hseg ++ '.' :: qseg })) := by
  constructor
  · intro p prim v w token hseg qseg sseg hdr pl hsplit hhdr halg htyp hkwv hpl hobj
    have hdec : decodeJWT p token =
        .ok (.failure "Payload must be a JSON object".toList) := by
      rw [decodeJWT_header_ok p token hseg qseg sseg hdr hsplit hhdr halg htyp hkwv, hpl]
      dsimp only
      rw [hobj]
      simp
    unfold performValidation
    rw [hdec]
    dsimp only
    rw [show classifyDecodeError ("Payload must be a JSON object".toList) =
      malformedToken ("Payload must be a JSON object".toList) from rfl]
    rfl
  · intro p token hseg qseg sseg hdr xs sig hsplit hhdr halg htyp hkwv hpl hsig hlen
    rw [decodeJWT_header_ok p token hseg qseg sseg hdr hsplit hhdr halg htyp hkwv, hpl]
    dsimp only
    rw [show jsIsObjectType (JsValue.arr xs) = true from rfl]
    simp only [Bool.true_eq_false, not_false_eq_true, not_true, if_false, ite_false,
      Bool.not_true, if_true, ite_true]
    rw [hsig]
    dsimp only
    rw [if_neg (by omega : ¬ sig.length ≠ 64)]

/-- C3 witness: the amended statement applied at a null payload (first
part) and at an array payload with a 64-byte signature (second part). -/
theorem c3_witness :
    errorCodeOf (performValidation pNullPayload primOk vConc wConc tokenNullPayload) =
      some ErrorCode.MALFORMED_TOKEN ∧
    decodeJWT pArrPayload tokenArrPayload = .ok (.success
      { header := hdrObj, payload := .arr [], signature := List.replicate 64 0,
        signingInput := ['a', 'a'] ++ '.' :: ['a'] }) :=
  ⟨c3_amended.1 pNullPayload primOk vConc wConc tokenNullPayload
      ['a', 'a'] ['a'] ['a'] hdrObj .null (by decide) rfl rfl rfl rfl rfl rfl,
   c3_amended.2 pArrPayload tokenArrPayload ['a', 'a'] ['a']
      (List.replicate 86 'A') hdrObj [] (List.replicate 64 0)
      (by decide) rfl rfl rfl rfl rfl (by decide) (by decide)⟩

end KeyWrit
